import Mathlib

/-
  Verification development for `src/globus_sdk/_generate_init.py`, the
  build-time generator of the lazy public-API facade (`__init__.py`) of the
  globus-sdk package, together with a shallow embedding of the runtime
  behavior of the module it generates (the `__dir__` / `__getattr__` hooks,
  the lazy-import table and `_force_eager_imports`).

  Conventions of the embedding:
  - An Export Table (`_LAZY_IMPORT_TABLE` in the source) is a list of
    (submodule name, list of symbol names) pairs; the generator source holds
    it as a Python list of tuples and the generated module serializes it as
    an insertion-ordered dict of sets, both iterated in table order.
  - The generator's emission functions are pure string producers and are
    embedded line-for-line (`textwrap.indent(s, "    ")` on the single-line
    inputs used here is plain prefixing).
  - The runtime is modelled with explicit state passing: `MState` carries
    the `sys.modules` cache, the namespace's bound attributes (the
    Resolution Cache) and a trace of actual module-load side effects.
    The host import machinery (`importlib.import_module` backed by
    `sys.modules`) is a `Host` giving each submodule's load outcome; a load
    either fails with an error payload or yields the submodule's attribute
    dictionary. Values are an arbitrary type `V`.
-/

namespace GlobusInit

/-- An Export Table: ordered (SubmoduleId, symbol names) pairs, as in
`_LAZY_IMPORT_TABLE` of the generator source. -/
abbrev Table := List (String × List String)

/-- The symbols of all submodules in table order:
`itertools.chain(*[items for _, items in _LAZY_IMPORT_TABLE])`. -/
def allSymbols : Table → List String
  | [] => []
  | (_, items) :: rest => items ++ allSymbols rest

/-- Python `sorted` on strings (stable, lexicographic); embedded as
insertion sort over the linear order on `String`. -/
def pySorted (l : List String) : List String :=
  List.insertionSort (· ≤ ·) l

/-- The generated package's `__name__`. -/
def NS_NAME : String := "globus_sdk"

/-- `FIXED_PREAMBLE` of the generator (with `{pathlib.Path(__file__).name}`
interpolated to `_generate_init.py`). -/
def FIXED_PREAMBLE : String :=
  "# isort:skip_file\n# fmt:off\n#\n# this __init__.py file is generated by _generate_init.py\n# do not edit it directly or testing will fail\nimport importlib\nimport logging\nimport sys\nimport typing\n\nfrom .version import __version__\n\n\ndef _force_eager_imports() -> None:\n    current_module = sys.modules[__name__]\n\n    for attribute_set in _LAZY_IMPORT_TABLE.values():\n        for attr in attribute_set:\n            getattr(current_module, attr)\n"

/-- `FIXED_EPILOG` of the generator. -/
def FIXED_EPILOG : String :=
  "\n# configure logging for a library, per python best practices:\n# https://docs.python.org/3/howto/logging.html#configuring-logging-for-a-library\nlogging.getLogger(\"globus_sdk\").addHandler(logging.NullHandler())\n"

/-- The block the generator yields between the eager import list and the
`__all__` tuple: the `else:` branch installing `__dir__` and `__getattr__`
(source lines 195-221). -/
def HOOKS_BLOCK : String :=
  "\nelse:\n    def __dir__() -> typing.List[str]:\n        # dir(globus_sdk) should include everything exported in __all__\n        # as well as some explicitly selected attributes from the default dir() output\n        # on a module\n        #\n        # see also:\n        # https://discuss.python.org/t/how-to-properly-extend-standard-dir-search-with-module-level-dir/4202\n        return list(__all__) + [\n            # __all__ itself can be inspected\n            \"__all__\",\n            # useful to figure out where a package is installed\n            \"__file__\",\n            \"__path__\",\n        ]\n\n    def __getattr__(name: str) -> typing.Any:\n        for modname, items in _LAZY_IMPORT_TABLE.items():\n            if name in items:\n                mod = importlib.import_module(\".\" + modname, __name__)\n                value = getattr(mod, name)\n                setattr(sys.modules[__name__], name, value)\n                return value\n\n        raise AttributeError(f\"module \x7b__name__\x7d has no attribute \x7bname\x7d\")\n"

/-- The mode-switch line emitted by `_init_pieces` (source line 193). -/
def SWITCH_LINE : String :=
  "if typing.TYPE_CHECKING or sys.version_info < (3, 7):"

/-- `_generate_imports`: one indented `from .<modname> import <item>` line
per (modname, item) pair, in table order. -/
def _generate_imports : Table → List String
  | [] => []
  | (modname, items) :: rest =>
      items.map (fun item => "    from ." ++ modname ++ " import " ++ item)
        ++ _generate_imports rest

/-- The per-submodule body lines of the serialized `_LAZY_IMPORT_TABLE`
dict literal. -/
def tableEntryLines : Table → List String
  | [] => []
  | (modname, items) :: rest =>
      ("    \"" ++ modname ++ "\": \x7b")
        :: (items.map (fun item => "        \"" ++ item ++ "\","))
        ++ ["    \x7d,"]
        ++ tableEntryLines rest

/-- `_generate_lazy_import_table`: the serialized Resolution Table embedded
in the generated module. -/
def _generate_lazy_import_table (t : Table) : List String :=
  "_LAZY_IMPORT_TABLE = \x7b" :: tableEntryLines t ++ ["\x7d"]

/-- The runtime `__all__` contents of the generated module: the two fixed
infrastructure names followed by the sorted symbols of the table. -/
def exportNames (t : Table) : List String :=
  "__version__" :: "_force_eager_imports" :: pySorted (allSymbols t)

/-- `_generate_all_tuple`: the emitted `__all__ = (...)` lines. -/
def _generate_all_tuple (t : Table) : List String :=
  "__all__ = ("
    :: "    \"__version__\","
    :: "    \"_force_eager_imports\","
    :: (pySorted (allSymbols t)).map (fun item => "    \"" ++ item ++ "\",")
    ++ [")"]

/-- `_init_pieces`: the sequence of text pieces of the generated module. -/
def _init_pieces (t : Table) : List String :=
  [FIXED_PREAMBLE, ""]
    ++ _generate_lazy_import_table t
    ++ [""]
    ++ [SWITCH_LINE]
    ++ _generate_imports t
    ++ [HOOKS_BLOCK]
    ++ [""]
    ++ _generate_all_tuple t
    ++ ["", FIXED_EPILOG]

/-- `_generate_init`: the full generated module source text. -/
def _generate_init (t : Table) : String :=
  String.intercalate "\n" (_init_pieces t)

/-- The global symbol-uniqueness invariant of the Export Table: no
SymbolName is claimed by two submodules (nor listed twice). -/
def symbolsUnique (t : Table) : Prop :=
  (allSymbols t).Nodup

/-- The repository's actual `_LAZY_IMPORT_TABLE` (source lines 39-158). -/
def LAZY_IMPORT_TABLE : Table :=
  [ ("authorizers",
      [ "AccessTokenAuthorizer", "BasicAuthorizer", "ClientCredentialsAuthorizer",
        "NullAuthorizer", "RefreshTokenAuthorizer" ]),
    ("client", ["BaseClient"]),
    ("exc",
      [ "GlobusAPIError", "GlobusConnectionError", "GlobusConnectionTimeoutError",
        "GlobusError", "GlobusSDKUsageError", "GlobusTimeoutError", "NetworkError" ]),
    ("local_endpoint",
      [ "GlobusConnectPersonalOwnerInfo", "LocalGlobusConnectPersonal" ]),
    ("response", ["GlobusHTTPResponse"]),
    ("services.auth",
      [ "AuthAPIError", "AuthClient", "ConfidentialAppAuthClient", "IdentityMap",
        "NativeAppAuthClient", "OAuthDependentTokenResponse", "OAuthTokenResponse" ]),
    ("services.gcs",
      [ "CollectionDocument", "GCSAPIError", "GCSClient", "GCSRoleDocument",
        "GuestCollectionDocument", "MappedCollectionDocument", "CollectionPolicies",
        "POSIXCollectionPolicies", "POSIXStagingCollectionPolicies",
        "GoogleCloudStorageCollectionPolicies", "StorageGatewayDocument",
        "StorageGatewayPolicies", "POSIXStoragePolicies", "POSIXStagingStoragePolicies",
        "BlackPearlStoragePolicies", "BoxStoragePolicies", "CephStoragePolicies",
        "GoogleDriveStoragePolicies", "GoogleCloudStoragePolicies",
        "OneDriveStoragePolicies", "AzureBlobStoragePolicies", "S3StoragePolicies",
        "ActiveScaleStoragePolicies", "IrodsStoragePolicies", "HPSSStoragePolicies",
        "UserCredentialDocument" ]),
    ("services.flows",
      [ "FlowsClient", "FlowsAPIError", "IterableFlowsResponse", "SpecificFlowClient" ]),
    ("services.groups",
      [ "BatchMembershipActions", "GroupMemberVisibility", "GroupPolicies",
        "GroupRequiredSignupFields", "GroupRole", "GroupsAPIError", "GroupsClient",
        "GroupsManager", "GroupVisibility" ]),
    ("services.search",
      [ "SearchAPIError", "SearchClient", "SearchQuery", "SearchScrollQuery" ]),
    ("services.timer", ["TimerAPIError", "TimerClient", "TimerJob"]),
    ("services.transfer",
      [ "ActivationRequirementsResponse", "DeleteData", "IterableTransferResponse",
        "TransferAPIError", "TransferClient", "TransferData" ]) ]

/- ### Runtime semantics of the generated module -/

/-- A loaded submodule: its attribute dictionary. -/
abbrev Mod (V : Type) := List (String × V)

/-- The host import machinery: for each submodule name, the outcome of
actually loading it (an `ImportError` payload, or its attributes). -/
structure Host (V : Type) where
  load : String → Except String (Mod V)

/-- Runtime state of the generated namespace module:
`sysModules` is the `sys.modules` cache of already-imported submodules,
`attrs` the attributes bound on the namespace (the Resolution Cache),
`imports` the trace of actual module-load side effects performed. -/
structure MState (V : Type) where
  sysModules : List (String × Mod V)
  attrs : List (String × V)
  imports : List String
deriving DecidableEq

/-- Association-list lookup (Python `in` / `getattr` on a dict view). -/
def lookupA {α : Type} : List (String × α) → String → Option α
  | [], _ => none
  | (k, v) :: rest, n => if k = n then some v else lookupA rest n

/-- A fresh module state: nothing imported, nothing resolved. -/
def initState (V : Type) : MState V :=
  { sysModules := [], attrs := [], imports := [] }

/-- Errors a lookup on the namespace can raise. -/
inductive PyErr where
  | importError (payload : String)
  | attributeError (msg : String)
deriving DecidableEq

/-- `importlib.import_module("." + modname, __name__)`: a `sys.modules` hit
returns the cached module with no side effect; otherwise the host loads the
module, and only a successful load is recorded in `sys.modules` (Python
removes a failed module from `sys.modules`) and in the side-effect trace. -/
def importModule {V : Type} (host : Host V) (modname : String) (st : MState V) :
    Except String (Mod V) × MState V :=
  match lookupA st.sysModules modname with
  | some mod => (Except.ok mod, st)
  | none =>
    match host.load modname with
    | Except.error e => (Except.error e, st)
    | Except.ok mod =>
        (Except.ok mod,
          { st with
              sysModules := (modname, mod) :: st.sysModules,
              imports := st.imports ++ [modname] })

/-- The loop body of the generated `__getattr__`: scan the serialized table
in order for the first submodule whose symbol set contains `name`; import
it, fetch the value, bind it on the namespace with `setattr`, return it.
Falling off the loop raises the unknown-attribute error. -/
def resolveLoop {V : Type} (host : Host V) (name : String) :
    Table → MState V → Except PyErr V × MState V
  | [], st =>
      (Except.error (PyErr.attributeError
        ("module " ++ NS_NAME ++ " has no attribute " ++ name)), st)
  | (modname, items) :: rest, st =>
      if name ∈ items then
        match importModule host modname st with
        | (Except.error e, st') => (Except.error (PyErr.importError e), st')
        | (Except.ok mod, st') =>
          match lookupA mod name with
          | none =>
              (Except.error (PyErr.attributeError
                ("module " ++ NS_NAME ++ "." ++ modname
                  ++ " has no attribute " ++ name)), st')
          | some v =>
              (Except.ok v, { st' with attrs := (name, v) :: st'.attrs })
      else resolveLoop host name rest st

/-- The generated module-level `__getattr__` hook. -/
def getattrHook {V : Type} (host : Host V) (t : Table) (name : String)
    (st : MState V) : Except PyErr V × MState V :=
  resolveLoop host name t st

/-- Ordinary attribute read on the namespace (`getattr(current_module, n)`):
a bound attribute is returned directly; only an attribute miss enters the
`__getattr__` hook. The Bool records whether the hook was invoked. -/
def readAttr {V : Type} (host : Host V) (t : Table) (name : String)
    (st : MState V) : (Except PyErr V × MState V) × Bool :=
  match lookupA st.attrs name with
  | some v => ((Except.ok v, st), false)
  | none => (getattrHook host t name st, true)

/-- Perform ordinary attribute reads for a list of names in order, stopping
at (and propagating) the first error; returns the number of `__getattr__`
hook invocations performed. -/
def runAttrs {V : Type} (host : Host V) (t : Table) :
    List String → MState V → Option PyErr × MState V × Nat
  | [], st => (none, st, 0)
  | n :: ns, st =>
    match readAttr host t n st with
    | ((Except.ok _, st'), b) =>
      match runAttrs host t ns st' with
      | (e, st'', k) => (e, st'', (if b then 1 else 0) + k)
    | ((Except.error e, st'), b) => (some e, st', if b then 1 else 0)

/-- The generated `_force_eager_imports`: an ordinary attribute read of
every symbol of every submodule in the table. -/
def forceEagerImports {V : Type} (host : Host V) (t : Table) (st : MState V) :
    Option PyErr × MState V × Nat :=
  runAttrs host t (allSymbols t) st

/-- The generated `__dir__` hook: `list(__all__)` plus the fixed
meta-attributes. It reads only the module-level `__all__` constant, never
the resolution state. -/
def dirHook {V : Type} (t : Table) (_st : MState V) : List String :=
  exportNames t ++ ["__all__", "__file__", "__path__"]

/-- First table entry owning a symbol (the entry the `__getattr__` loop
stops at). -/
def findOwner : Table → String → Option String
  | [], _ => none
  | (modname, items) :: rest, n =>
      if n ∈ items then some modname else findOwner rest n

/-- The mode-switch condition of the generated module,
`typing.TYPE_CHECKING or sys.version_info < (3, 7)`; Python tuple
comparison of `(major, minor, micro, ...)` against `(3, 7)` ignores the
micro component whenever it is reached. -/
def eagerImportMode (typeChecking : Bool) (major minor _micro : Nat) : Bool :=
  typeChecking || decide (major < 3 ∨ (major = 3 ∧ minor < 7))

/-- The lazy hooks (`__dir__`, `__getattr__`) are installed exactly when the
eager branch is not taken. -/
def hooksInstalled (typeChecking : Bool) (major minor micro : Nat) : Bool :=
  !(eagerImportMode typeChecking major minor micro)

/-- Reading attribute `attr` after importing submodule `modname` directly
through the same host import machinery; `Except.ok none` means the
submodule imported but lacks the attribute. -/
def directImportRead {V : Type} (host : Host V) (modname attr : String)
    (st : MState V) : Except String (Option V) :=
  match importModule host modname st with
  | (Except.ok mod, _) => Except.ok (lookupA mod attr)
  | (Except.error e, _) => Except.error e

/-- A two-submodule Export Table with the same symbol under both
submodules, violating the global uniqueness invariant. -/
def dupTable : Table := [("moda", ["X"]), ("modb", ["X"])]

/-- The spec's concrete scenario table. -/
def smallTable : Table := [("moda", ["Foo"]), ("modb", ["Bar", "Baz"])]

/-- A host for `smallTable` on which every submodule load succeeds. -/
def smallHost : Host Nat :=
  { load := fun modname =>
      if modname = "moda" then Except.ok [("Foo", 1)]
      else if modname = "modb" then Except.ok [("Bar", 2), ("Baz", 3)]
      else Except.error ("No module named " ++ modname) }

/-- A host on which loading `moda` fails. -/
def failHost : Host Nat :=
  { load := fun modname =>
      if modname = "moda" then Except.error "No module named moda"
      else Except.ok [("Bar", 2), ("Baz", 3)] }

/-- The state reached from the fresh state by resolving `Bar` of
`smallTable` through `smallHost`. -/
def barState : MState Nat :=
  { sysModules := [("modb", [("Bar", 2), ("Baz", 3)])],
    attrs := [("Bar", 2)],
    imports := ["modb"] }

/-- The state reached from the fresh state by a successful
`_force_eager_imports` run on `smallTable` through `smallHost`. -/
def eagerState : MState Nat :=
  { sysModules := [("modb", [("Bar", 2), ("Baz", 3)]), ("moda", [("Foo", 1)])],
    attrs := [("Baz", 3), ("Bar", 2), ("Foo", 1)],
    imports := ["moda", "modb"] }

/- ### Helper lemmas -/

theorem importModule_attrs {V : Type} (host : Host V) (m : String)
    (st : MState V) : (importModule host m st).2.attrs = st.attrs := by
  unfold importModule
  split
  · rfl
  · split
    · rfl
    · rfl

theorem importModule_error_state {V : Type} (host : Host V) (m : String)
    (st st' : MState V) (e : String)
    (h : importModule host m st = (Except.error e, st')) : st' = st := by
  unfold importModule at h
  split at h
  · exact absurd (congrArg Prod.fst h) (by simp)
  · split at h
    · exact (congrArg Prod.snd h).symm
    · exact absurd (congrArg Prod.fst h) (by simp)

theorem resolveLoop_not_found {V : Type} (host : Host V) (s : String)
    (t : Table) (st : MState V) (h : findOwner t s = none) :
    resolveLoop host s t st =
      (Except.error (PyErr.attributeError
        ("module " ++ NS_NAME ++ " has no attribute " ++ s)), st) := by
  induction t with
  | nil => rfl
  | cons hd rest ih =>
    obtain ⟨modname, items⟩ := hd
    have hni : s ∉ items := by
      intro hm
      simp [findOwner, hm] at h
    have hrest : findOwner rest s = none := by
      simpa [findOwner, hni] using h
    simpa [resolveLoop, hni] using ih hrest

theorem resolveLoop_found {V : Type} (host : Host V) (s m : String)
    (t : Table) (st : MState V) (hown : findOwner t s = some m) :
    resolveLoop host s t st =
      match importModule host m st with
      | (Except.error e, st') => (Except.error (PyErr.importError e), st')
      | (Except.ok mod, st') =>
        match lookupA mod s with
        | none =>
            (Except.error (PyErr.attributeError
              ("module " ++ NS_NAME ++ "." ++ m ++ " has no attribute " ++ s)),
              st')
        | some v => (Except.ok v, { st' with attrs := (s, v) :: st'.attrs }) := by
  induction t with
  | nil => simp [findOwner] at hown
  | cons hd rest ih =>
    obtain ⟨modname, items⟩ := hd
    by_cases hm : s ∈ items
    · have hmod : m = modname := by
        have := hown
        simp [findOwner, hm] at this
        exact this.symm
      subst hmod
      simp [resolveLoop, hm]
    · have hrest : findOwner rest s = some m := by
        simpa [findOwner, hm] using hown
      simpa [resolveLoop, hm] using ih hrest

theorem resolveLoop_found_ok {V : Type} (host : Host V) (s m : String)
    (t : Table) (st st' : MState V) (mod : Mod V) (v : V)
    (hown : findOwner t s = some m)
    (himp : importModule host m st = (Except.ok mod, st'))
    (hval : lookupA mod s = some v) :
    resolveLoop host s t st =
      (Except.ok v, { st' with attrs := (s, v) :: st'.attrs }) := by
  rw [resolveLoop_found host s m t st hown, himp]
  simp [hval]

theorem resolveLoop_found_error {V : Type} (host : Host V) (s m : String)
    (t : Table) (st st' : MState V) (e : String)
    (hown : findOwner t s = some m)
    (himp : importModule host m st = (Except.error e, st')) :
    resolveLoop host s t st = (Except.error (PyErr.importError e), st') := by
  rw [resolveLoop_found host s m t st hown, himp]

theorem resolveLoop_ok_attrs {V : Type} (host : Host V) (s : String)
    (t : Table) (st st' : MState V) (v : V)
    (h : resolveLoop host s t st = (Except.ok v, st')) :
    st'.attrs = (s, v) :: st.attrs := by
  induction t with
  | nil => simp [resolveLoop] at h
  | cons hd rest ih =>
    obtain ⟨modname, items⟩ := hd
    by_cases hm : s ∈ items
    · simp only [resolveLoop, if_pos hm] at h
      split at h
      · simp at h
      · rename_i mod stm heq
        split at h
        · simp at h
        · rename_i w hval
          simp only [Prod.mk.injEq, Except.ok.injEq] at h
          obtain ⟨hv, hst⟩ := h
          have hattrs : stm.attrs = st.attrs := by
            have := importModule_attrs host modname st
            rw [heq] at this
            exact this
          rw [← hst]
          simp [hv, hattrs]
    · simp only [resolveLoop, if_neg hm] at h
      exact ih h

theorem resolveLoop_lookup_ne {V : Type} (host : Host V) (s : String)
    (t : Table) (st : MState V) (x : String) (hx : x ≠ s) :
    lookupA (resolveLoop host s t st).2.attrs x = lookupA st.attrs x := by
  induction t with
  | nil => rfl
  | cons hd rest ih =>
    obtain ⟨modname, items⟩ := hd
    by_cases hm : s ∈ items
    · simp only [resolveLoop, if_pos hm]
      split
      · rename_i e stm heq
        rw [show stm = st from importModule_error_state host modname st stm e heq]
      · rename_i mod stm heq
        have hattrs : stm.attrs = st.attrs := by
          have := importModule_attrs host modname st
          rw [heq] at this
          exact this
        split
        · rw [hattrs]
        · simp only [lookupA, hattrs]
          rw [if_neg (Ne.symm hx)]
    · simp only [resolveLoop, if_neg hm]
      exact ih

theorem readAttr_hit {V : Type} (host : Host V) (t : Table) (n : String)
    (st : MState V) (v : V) (h : lookupA st.attrs n = some v) :
    readAttr host t n st = ((Except.ok v, st), false) := by
  simp [readAttr, h]

theorem readAttr_miss {V : Type} (host : Host V) (t : Table) (n : String)
    (st : MState V) (h : lookupA st.attrs n = none) :
    readAttr host t n st = (getattrHook host t n st, true) := by
  simp [readAttr, h]

theorem readAttr_preserves {V : Type} (host : Host V) (t : Table)
    (n : String) (st : MState V) (x : String) (w : V)
    (hx : lookupA st.attrs x = some w) :
    lookupA ((readAttr host t n st).1.2).attrs x = some w := by
  cases hn : lookupA st.attrs n with
  | some v => simp [readAttr, hn, hx]
  | none =>
    have hxn : x ≠ n := by
      intro e
      rw [e, hn] at hx
      cases hx
    simp only [readAttr, hn, getattrHook]
    rw [resolveLoop_lookup_ne host n t st x hxn]
    exact hx

theorem readAttr_ok_binds {V : Type} (host : Host V) (t : Table)
    (n : String) (st st' : MState V) (v : V) (b : Bool)
    (h : readAttr host t n st = ((Except.ok v, st'), b)) :
    lookupA st'.attrs n = some v := by
  cases hn : lookupA st.attrs n with
  | some w =>
    rw [readAttr_hit host t n st w hn] at h
    simp only [Prod.mk.injEq, Except.ok.injEq] at h
    obtain ⟨⟨hv, hst⟩, _⟩ := h
    rw [← hst, hn, hv]
  | none =>
    rw [readAttr_miss host t n st hn] at h
    simp only [Prod.mk.injEq] at h
    obtain ⟨hhook, _⟩ := h
    have := resolveLoop_ok_attrs host n t st st' v hhook
    simp [this, lookupA]

theorem runAttrs_preserves {V : Type} (host : Host V) (t : Table)
    (ns : List String) (st : MState V) (x : String) (w : V)
    (hx : lookupA st.attrs x = some w) :
    lookupA ((runAttrs host t ns st).2.1).attrs x = some w := by
  induction ns generalizing st with
  | nil => exact hx
  | cons n tl ih =>
    simp only [runAttrs]
    rcases hr : readAttr host t n st with ⟨⟨res, st₂⟩, b⟩
    have hx₂ : lookupA st₂.attrs x = some w := by
      have := readAttr_preserves host t n st x w hx
      rw [hr] at this
      exact this
    cases res with
    | ok v =>
      rcases hrun : runAttrs host t tl st₂ with ⟨e, st₃, k⟩
      have := ih st₂ hx₂
      rw [hrun] at this
      simpa [hrun] using this
    | error e => exact hx₂

theorem runAttrs_ok_binds {V : Type} (host : Host V) (t : Table)
    (ns : List String) (st st' : MState V) (k : Nat)
    (h : runAttrs host t ns st = (none, st', k)) :
    ∀ n ∈ ns, ∃ v, lookupA st'.attrs n = some v := by
  induction ns generalizing st k with
  | nil => intro n hn; cases hn
  | cons hd tl ih =>
    intro n hn
    simp only [runAttrs] at h
    rcases hr : readAttr host t hd st with ⟨⟨res, st₂⟩, b⟩
    rw [hr] at h
    cases res with
    | error e => simp at h
    | ok v =>
      dsimp only at h
      rcases hrun : runAttrs host t tl st₂ with ⟨e, st₃, k'⟩
      rw [hrun] at h
      simp only [Prod.mk.injEq] at h
      obtain ⟨he, hst, _⟩ := h
      rcases List.mem_cons.mp hn with hhd | htl
      · subst hhd
        have hbind := readAttr_ok_binds host t n st st₂ v b hr
        have := runAttrs_preserves host t tl st₂ n v hbind
        rw [hrun] at this
        exact ⟨v, hst ▸ this⟩
      · subst he
        exact ih st₂ k' (by rw [hrun, hst]) n htl

theorem runAttrs_all_bound {V : Type} (host : Host V) (t : Table)
    (ns : List String) (st : MState V)
    (h : ∀ n ∈ ns, ∃ v, lookupA st.attrs n = some v) :
    runAttrs host t ns st = (none, st, 0) := by
  induction ns with
  | nil => rfl
  | cons hd tl ih =>
    obtain ⟨v, hv⟩ := h hd (List.mem_cons_self hd tl)
    simp only [runAttrs, readAttr_hit host t hd st v hv]
    rw [ih (fun n hn => h n (List.mem_cons_of_mem hd hn))]
    simp

/- ### Claim theorems -/

/-- C1 counterexample: on a table in which the same SymbolName `X` is
claimed by two SubmoduleIds, `_generate_init` does not fail: it still emits
a module source containing the preamble, both eager import lines, and the
colliding symbol twice in the sorted export list. -/
theorem duplicate_symbols_still_generate_cex :
    ¬ symbolsUnique dupTable ∧
    _generate_imports dupTable =
      ["    from .moda import X", "    from .modb import X"] ∧
    FIXED_PREAMBLE ∈ _init_pieces dupTable ∧
    (pySorted (allSymbols dupTable)).count "X" = 2 := by
  refine ⟨(by decide : ¬ (allSymbols dupTable).Nodup), rfl, ?_, ?_⟩
  · simp [_init_pieces]
  · rw [show pySorted (allSymbols dupTable) =
        List.insertionSort (· ≤ ·) (allSymbols dupTable) from rfl,
      (List.perm_insertionSort (· ≤ ·) (allSymbols dupTable)).count_eq "X"]
    decide

/-- C1 (amended): the generator performs no uniqueness validation: for every
Export Table, valid or not, it proceeds to emit the module source (the fixed
preamble is among the emitted pieces), and every occurrence of every symbol
in the table — duplicates included — appears in the emitted export list
(nothing is dropped, deduplicated, or rejected). -/
theorem generator_emits_unvalidated (t : Table) (s : String) :
    FIXED_PREAMBLE ∈ _init_pieces t ∧
    (pySorted (allSymbols t)).count s = (allSymbols t).count s := by
  constructor
  · simp [_init_pieces]
  · exact (List.perm_insertionSort (· ≤ ·) (allSymbols t)).count_eq s

/-- C2: when the requested symbol is unresolved and the `__getattr__` hook
fires, the value returned equals the one obtained by importing the symbol's
owning submodule directly (through the same host import machinery) and
reading the attribute on it. -/
theorem lazy_resolution_matches_direct_import
    (V : Type) (host : Host V) (t : Table) (s m : String)
    (st : MState V) (v : V)
    (hown : findOwner t s = some m)
    (hunres : lookupA st.attrs s = none)
    (hdirect : directImportRead host m s st = Except.ok (some v)) :
    ((readAttr host t s st).1).1 = Except.ok v := by
  rcases himp : importModule host m st with ⟨res, st'⟩
  cases res with
  | error e =>
    simp [directImportRead, himp] at hdirect
  | ok mod =>
    have hval : lookupA mod s = some v := by
      simpa only [directImportRead, himp, Except.ok.injEq] using hdirect
    rw [readAttr_miss host t s st hunres]
    show (resolveLoop host s t st).1 = Except.ok v
    rw [resolveLoop_found_ok host s m t st st' mod v hown himp hval]

/-- C3: a name owned by no submodule of the table makes the `__getattr__`
hook fail with an AttributeError whose message names the namespace module
and the requested symbol, and the namespace state — in particular the set of
bound attributes (the Resolution Cache) — is exactly unchanged. -/
theorem unknown_attribute_error_leaves_cache
    (V : Type) (host : Host V) (t : Table) (s : String) (st : MState V)
    (hnone : findOwner t s = none) :
    getattrHook host t s st =
      (Except.error (PyErr.attributeError
        ("module " ++ NS_NAME ++ " has no attribute " ++ s)), st) ∧
    (getattrHook host t s st).2.attrs = st.attrs := by
  have h := resolveLoop_not_found host s t st hnone
  exact ⟨h, by rw [show getattrHook host t s st = _ from h]⟩

/-- C4: when the owning submodule's import fails, the failure payload
propagates unchanged to the caller, the namespace state is unchanged (no
cache entry is written, the symbol stays Unresolved), and a later lookup of
the same symbol re-attempts the import — with a host on which the load now
succeeds, the same lookup returns the resolved value. -/
theorem import_failure_propagates_and_retries
    (V : Type) (host host₂ : Host V) (t : Table) (s m : String)
    (st : MState V) (e : String) (mod : Mod V) (v : V)
    (hown : findOwner t s = some m)
    (hcache : lookupA st.sysModules m = none)
    (hfail : host.load m = Except.error e)
    (hload₂ : host₂.load m = Except.ok mod)
    (hval₂ : lookupA mod s = some v) :
    getattrHook host t s st = (Except.error (PyErr.importError e), st) ∧
    (getattrHook host₂ t s st).1 = Except.ok v := by
  have himp : importModule host m st = (Except.error e, st) := by
    simp [importModule, hcache, hfail]
  have himp₂ : importModule host₂ m st =
      (Except.ok mod,
        { st with
            sysModules := (m, mod) :: st.sysModules,
            imports := st.imports ++ [m] }) := by
    simp [importModule, hcache, hload₂]
  refine ⟨resolveLoop_found_error host s m t st st e hown himp, ?_⟩
  show (resolveLoop host₂ s t st).1 = Except.ok v
  rw [resolveLoop_found_ok host₂ s m t st _ mod v hown himp₂ hval₂]

/-- C6: a successful resolution of symbol `s` through the `__getattr__`
hook writes exactly one new binding — attribute `s` — onto the namespace;
every other attribute lookup on the namespace is unchanged (so none of the
other symbols of `s`'s submodule are copied onto the namespace). -/
theorem resolution_writes_single_binding
    (V : Type) (host : Host V) (t : Table) (s n : String)
    (st st' : MState V) (v : V)
    (hok : getattrHook host t s st = (Except.ok v, st'))
    (hns : n ≠ s) :
    st'.attrs = (s, v) :: st.attrs ∧
    lookupA st'.attrs s = some v ∧
    lookupA st'.attrs n = lookupA st.attrs n := by
  have hattrs := resolveLoop_ok_attrs host s t st st' v hok
  refine ⟨hattrs, ?_, ?_⟩
  · simp [hattrs, lookupA]
  · rw [hattrs]
    simp only [lookupA]
    rw [if_neg (Ne.symm hns)]

/-- C7: generation is deterministic: two runs of `_generate_init` on the
same Export Table content and ordering produce byte-for-byte identical
module source text. -/
theorem generation_deterministic (t₁ t₂ : Table) (h : t₁ = t₂) :
    _generate_init t₁ = _generate_init t₂ := by
  rw [h]

/-- C10: the emitted mode-switch line selects the eager-import branch not
only under static analysis (`typing.TYPE_CHECKING`) but also whenever the
host Python version is below 3.7; the enumeration and attribute-miss hooks
are installed exactly when neither condition holds. -/
theorem mode_switch_eager_below_py37 (t : Table) (tc : Bool)
    (maj minr mic : Nat) :
    SWITCH_LINE ∈ _init_pieces t ∧
    (eagerImportMode tc maj minr mic = true ↔
      tc = true ∨ maj < 3 ∨ (maj = 3 ∧ minr < 7)) ∧
    (hooksInstalled tc maj minr mic = true ↔
      tc = false ∧ 3 ≤ maj ∧ (maj = 3 → 7 ≤ minr)) := by
  refine ⟨?_, ?_, ?_⟩
  · simp [_init_pieces]
  · cases tc
    · simp [eagerImportMode]
    · simp [eagerImportMode]
  · cases tc
    · simp [hooksInstalled, eagerImportMode]
      omega
    · simp [hooksInstalled, eagerImportMode]

/-- C5: resolution is idempotent at both granularities. Resolving symbol
`a` of submodule `m` on a fresh-for-`m` state performs the one real load of
`m`; resolving a second, distinct symbol `b` of the same `m` afterwards
hits the `sys.modules` cache, so the load trace still records exactly
one import of `m`. And after a successful `_force_eager_imports` run reaching
state `st₁`, a second run performs zero new imports and zero `__getattr__`
hook invocations and leaves the state identical. -/
theorem resolution_idempotence
    (V : Type) (host : Host V) (t : Table) (a b m : String)
    (st st₀ st₁ : MState V) (mod : Mod V) (va vb : V) (k : Nat)
    (hown_a : findOwner t a = some m) (hown_b : findOwner t b = some m)
    (hab : b ≠ a)
    (hcache : lookupA st.sysModules m = none)
    (hua : lookupA st.attrs a = none) (hub : lookupA st.attrs b = none)
    (hload : host.load m = Except.ok mod)
    (hva : lookupA mod a = some va) (hvb : lookupA mod b = some vb)
    (htrace : st.imports = [])
    (hforce : forceEagerImports host t st₀ = (none, st₁, k)) :
    readAttr host t a st =
      ((Except.ok va,
        { sysModules := (m, mod) :: st.sysModules,
          attrs := (a, va) :: st.attrs,
          imports := [m] }), true) ∧
    readAttr host t b
      { sysModules := (m, mod) :: st.sysModules,
        attrs := (a, va) :: st.attrs,
        imports := [m] } =
      ((Except.ok vb,
        { sysModules := (m, mod) :: st.sysModules,
          attrs := (b, vb) :: (a, va) :: st.attrs,
          imports := [m] }), true) ∧
    forceEagerImports host t st₁ = (none, st₁, 0) := by
  have himp : importModule host m st =
      (Except.ok mod,
        { sysModules := (m, mod) :: st.sysModules,
          attrs := st.attrs,
          imports := [m] }) := by
    simp [importModule, hcache, hload, htrace]
  refine ⟨?_, ?_, ?_⟩
  · rw [readAttr_miss host t a st hua]
    rw [show getattrHook host t a st = _ from
      resolveLoop_found_ok host a m t st _ mod va hown_a himp hva]
  · have hmissA : lookupA
        ({ sysModules := (m, mod) :: st.sysModules,
           attrs := (a, va) :: st.attrs,
           imports := [m] } : MState V).attrs b = none := by
      simp only [lookupA]
      rw [if_neg (Ne.symm hab)]
      exact hub
    have himpA : importModule host m
        { sysModules := (m, mod) :: st.sysModules,
          attrs := (a, va) :: st.attrs,
          imports := [m] } =
        (Except.ok mod,
          { sysModules := (m, mod) :: st.sysModules,
            attrs := (a, va) :: st.attrs,
            imports := [m] }) := by
      simp [importModule, lookupA]
    rw [readAttr_miss host t b _ hmissA]
    rw [show getattrHook host t b _ = _ from
      resolveLoop_found_ok host b m t _ _ mod vb hown_b himpA hvb]
  · have hall := runAttrs_ok_binds host t (allSymbols t) st₀ st₁ k hforce
    exact runAttrs_all_bound host t (allSymbols t) st₁ hall

/-- C8: `_generate_all_tuple` emits, as the declared export list, the two
fixed infrastructure names (`__version__` and `_force_eager_imports`)
followed by the sorted union of all SymbolNames across all submodules of
the table; under the uniqueness invariant (and with the fixed names claimed
by no submodule) the list is duplicate-free. -/
theorem export_list_is_sorted_union (t : Table)
    (hnodup : (allSymbols t).Nodup)
    (hv : "__version__" ∉ allSymbols t)
    (hf : "_force_eager_imports" ∉ allSymbols t) :
    _generate_all_tuple t =
      "__all__ = ("
        :: (exportNames t).map (fun s => "    \"" ++ s ++ "\",") ++ [")"] ∧
    (exportNames t).Perm
      ("__version__" :: "_force_eager_imports" :: allSymbols t) ∧
    (pySorted (allSymbols t)).Sorted (· ≤ ·) ∧
    (exportNames t).Nodup := by
  have hperm : (exportNames t).Perm
      ("__version__" :: "_force_eager_imports" :: allSymbols t) :=
    ((List.perm_insertionSort (· ≤ ·) (allSymbols t)).cons
      "_force_eager_imports").cons "__version__"
  refine ⟨rfl, hperm, List.sorted_insertionSort (· ≤ ·) (allSymbols t), ?_⟩
  have hnd : ("__version__" :: "_force_eager_imports" :: allSymbols t).Nodup := by
    refine List.nodup_cons.mpr ⟨?_, List.nodup_cons.mpr ⟨hf, hnodup⟩⟩
    intro hmem
    rcases List.mem_cons.mp hmem with h | h
    · exact absurd h (by decide)
    · exact hv h
  exact hperm.nodup_iff.mpr hnd

/-- C9: the `__dir__` hook returns the declared export list plus the fixed
meta-attributes `__all__`, `__file__`, `__path__`, and it is independent of
the resolution state: its result on the pre-resolution state equals its
result on the state reached by a successful `_force_eager_imports` run. -/
theorem enumeration_resolution_independent
    (V : Type) (host : Host V) (t : Table) (st₀ st₁ : MState V) (k : Nat)
    (hforce : forceEagerImports host t st₀ = (none, st₁, k)) :
    dirHook t st₀ = exportNames t ++ ["__all__", "__file__", "__path__"] ∧
    dirHook t st₁ = dirHook t st₀ :=
  ⟨rfl, rfl⟩

/- ### Witnesses -/

/-- C2 witness: the spec's concrete scenario — reading `Bar` through the
hook yields `mod_b.Bar`. -/
theorem lazy_resolution_matches_direct_import_witness :
    ((readAttr smallHost smallTable "Bar" (initState Nat)).1).1 =
      Except.ok 2 :=
  lazy_resolution_matches_direct_import Nat smallHost smallTable "Bar" "modb"
    (initState Nat) 2 rfl rfl rfl

/-- C3 witness: reading `Qux` fails with the unknown-attribute error and
leaves the fresh state unchanged. -/
theorem unknown_attribute_error_leaves_cache_witness :
    getattrHook smallHost smallTable "Qux" (initState Nat) =
      (Except.error (PyErr.attributeError
        ("module " ++ NS_NAME ++ " has no attribute " ++ "Qux")),
        initState Nat) ∧
    (getattrHook smallHost smallTable "Qux" (initState Nat)).2.attrs =
      (initState Nat).attrs :=
  unknown_attribute_error_leaves_cache Nat smallHost smallTable "Qux"
    (initState Nat) rfl

/-- C4 witness: a failing load of `moda` propagates unchanged and leaves
the state untouched; with a host whose load succeeds, the same lookup
resolves. -/
theorem import_failure_propagates_and_retries_witness :
    getattrHook failHost smallTable "Foo" (initState Nat) =
      (Except.error (PyErr.importError "No module named moda"),
        initState Nat) ∧
    (getattrHook smallHost smallTable "Foo" (initState Nat)).1 =
      Except.ok 1 :=
  import_failure_propagates_and_retries Nat failHost smallHost smallTable
    "Foo" "moda" (initState Nat) "No module named moda" [("Foo", 1)] 1
    rfl rfl rfl rfl rfl

/-- C5 witness: resolving `Bar` then `Baz` of `modb` loads `modb` once in
total, and rerunning `_force_eager_imports` after a successful run is a
no-op with zero hook invocations. -/
theorem resolution_idempotence_witness :
    readAttr smallHost smallTable "Bar" (initState Nat) =
      ((Except.ok 2,
        { sysModules :=
            ("modb", [("Bar", 2), ("Baz", 3)]) :: (initState Nat).sysModules,
          attrs := ("Bar", 2) :: (initState Nat).attrs,
          imports := ["modb"] }), true) ∧
    readAttr smallHost smallTable "Baz"
      { sysModules :=
          ("modb", [("Bar", 2), ("Baz", 3)]) :: (initState Nat).sysModules,
        attrs := ("Bar", 2) :: (initState Nat).attrs,
        imports := ["modb"] } =
      ((Except.ok 3,
        { sysModules :=
            ("modb", [("Bar", 2), ("Baz", 3)]) :: (initState Nat).sysModules,
          attrs := ("Baz", 3) :: ("Bar", 2) :: (initState Nat).attrs,
          imports := ["modb"] }), true) ∧
    forceEagerImports smallHost smallTable eagerState =
      (none, eagerState, 0) :=
  resolution_idempotence Nat smallHost smallTable "Bar" "Baz" "modb"
    (initState Nat) (initState Nat) eagerState [("Bar", 2), ("Baz", 3)] 2 3 3
    rfl rfl (by decide) rfl rfl rfl rfl rfl rfl rfl rfl

/-- C6 witness: resolving `Bar` binds exactly `Bar`; `Foo` (and `Baz`)
stay unresolved. -/
theorem resolution_writes_single_binding_witness :
    barState.attrs = ("Bar", 2) :: (initState Nat).attrs ∧
    lookupA barState.attrs "Bar" = some 2 ∧
    lookupA barState.attrs "Foo" = lookupA (initState Nat).attrs "Foo" :=
  resolution_writes_single_binding Nat smallHost smallTable "Bar" "Foo"
    (initState Nat) barState 2 rfl (by decide)

/-- C7 witness: regenerating from the repository's unchanged table yields
identical text. -/
theorem generation_deterministic_witness :
    _generate_init LAZY_IMPORT_TABLE = _generate_init LAZY_IMPORT_TABLE :=
  generation_deterministic LAZY_IMPORT_TABLE LAZY_IMPORT_TABLE rfl

/-- C8 witness: the export list of the spec's concrete scenario table. -/
theorem export_list_is_sorted_union_witness :
    _generate_all_tuple smallTable =
      "__all__ = ("
        :: (exportNames smallTable).map (fun s => "    \"" ++ s ++ "\",")
        ++ [")"] ∧
    (exportNames smallTable).Perm
      ("__version__" :: "_force_eager_imports" :: allSymbols smallTable) ∧
    (pySorted (allSymbols smallTable)).Sorted (· ≤ ·) ∧
    (exportNames smallTable).Nodup :=
  export_list_is_sorted_union smallTable (by decide) (by decide) (by decide)

/-- C9 witness: enumeration before any resolution equals enumeration after
a successful `_force_eager_imports` run. -/
theorem enumeration_resolution_independent_witness :
    dirHook smallTable (initState Nat) =
      exportNames smallTable ++ ["__all__", "__file__", "__path__"] ∧
    dirHook smallTable eagerState = dirHook smallTable (initState Nat) :=
  enumeration_resolution_independent Nat smallHost smallTable
    (initState Nat) eagerState 3 rfl

end GlobusInit
